import Mathlib

/-!
Verification development for the `pydevice42` Device42 REST client
(`pydevice42/d42client.py`, `pydevice42/types.py`).

The Python code is shallowly embedded: JSON / Python values become the
inductive `JVal`, Python dicts become insertion-ordered association lists
(`PyDict`), fallible Python code becomes `Except PyErr`, and the
`_paginated_request` generator becomes a pull-based step machine
(`genNext`) driven by a fuel-indexed consumer (`runGen`), so that
laziness, request counts and (non-)termination are all observable.
-/

/-- Embedded Python/JSON values (`JSON_Values` plus the containers of
`types.py`; floats are not needed by any code path modelled here). -/
inductive JVal where
  | null : JVal
  | bool (b : Bool) : JVal
  | int (n : Int) : JVal
  | str (s : String) : JVal
  | list (xs : List JVal) : JVal
  | dict (d : List (String × JVal)) : JVal

/-- A Python dict with string keys, in insertion order (`JSON_Dict`). -/
abbrev PyDict := List (String × JVal)

/-- Exceptions that the embedded code can raise.  `ReturnCodeException`,
`LicenseExpiredException` and `LicenseInsufficientException` come from the
repository's `pydevice42/exceptions.py` (not under `src/`); they are plain
message-carrying exception classes, modelled from the spec's error
taxonomy (§7).  The rest are built-in Python / `requests` exceptions. -/
inductive PyErr where
  | stopIteration : PyErr
  | keyError : PyErr
  | typeError : PyErr
  | valueError : PyErr
  | attributeError : PyErr
  | jsonDecode : PyErr
  | returnCode (msg : String) : PyErr
  | httpError (status : Nat) : PyErr
  | licenseExpired (msg : String) : PyErr
  | licenseInsufficient (msg : String) : PyErr
deriving Repr, DecidableEq

/-- First-match lookup in a dict (keys are unique in a Python dict). -/
def dictLookup : PyDict → String → Option JVal
  | [], _ => none
  | (k', v) :: rest, k => if k' = k then some v else dictLookup rest k

/-- Python's `d.get(k, default)`. -/
def dictGetD (d : PyDict) (k : String) (dflt : JVal) : JVal :=
  (dictLookup d k).getD dflt

/-- Python's `d[k] = v`: replaces the value in place (keeping the key's
position) when the key exists, appends otherwise. -/
def dictSet : PyDict → String → JVal → PyDict
  | [], k, v => [(k, v)]
  | (k', v') :: rest, k, v =>
    if k' = k then (k, v) :: rest else (k', v') :: dictSet rest k v

/-- Python truthiness (`bool(x)`), as used by `if not resp_data`. -/
def pyTruthy : JVal → Bool
  | .null => false
  | .bool b => b
  | .int n => n ≠ 0
  | .str s => s ≠ ""
  | .list xs => !xs.isEmpty
  | .dict d => !d.isEmpty

/-- Python's `len(x)`; raises `TypeError` on unsized values. -/
def pyLen : JVal → Except PyErr Nat
  | .str s => .ok s.length
  | .list xs => .ok xs.length
  | .dict d => .ok d.length
  | _ => .error .typeError

/-- Python's `int(x)` on an embedded value: ints pass through, bools map
to 0/1, numeric strings parse (else `ValueError`), everything else is a
`TypeError`.  This is `types.int_cast`. -/
def int_cast : JVal → Except PyErr Int
  | .int n => .ok n
  | .bool b => .ok (if b then 1 else 0)
  | .str s =>
    match s.trim.toInt? with
    | some n => .ok n
    | none => .error .valueError
  | _ => .error .typeError

/-- A single-quote character, used by `pyRepr` for strings. -/
def squote : String := String.singleton (Char.ofNat 39)

mutual
/-- Python's `repr(x)` for embedded values (containers render their
elements with `repr`, as Python does). -/
def pyRepr : JVal → String
  | .null => "None"
  | .bool true => "True"
  | .bool false => "False"
  | .int n => toString n
  | .str s => squote ++ s ++ squote
  | .list xs => "[" ++ pyReprList xs ++ "]"
  | .dict d => "\x7b" ++ pyReprDict d ++ "\x7d"

def pyReprList : List JVal → String
  | [] => ""
  | [x] => pyRepr x
  | x :: rest => pyRepr x ++ ", " ++ pyReprList rest

def pyReprDict : List (String × JVal) → String
  | [] => ""
  | [(k, v)] => squote ++ k ++ squote ++ ": " ++ pyRepr v
  | (k, v) :: rest =>
    squote ++ k ++ squote ++ ": " ++ pyRepr v ++ ", " ++ pyReprDict rest
end

/-- Python's `str(x)`: like `repr` except that strings print bare. -/
def pyStr : JVal → String
  | .str s => s
  | v => pyRepr v

/-- `iter(x)` materialised as the list of elements it would produce:
lists yield their elements, strings their characters, dicts their keys;
anything else raises `TypeError` (as `map`/`join` would). -/
def iterElems : JVal → Except PyErr (List JVal)
  | .list xs => .ok xs
  | .str s => .ok (s.toList.map (fun c => JVal.str (String.singleton c)))
  | .dict d => .ok (d.map (fun kv => JVal.str kv.1))
  | _ => .error .typeError

/-- The metadata keys of a list envelope (`d42client.extract_data`). -/
def metadata_keys : List String := ["offset", "total_count", "limit"]

/-- `d42client.extract_data`: return `data.get(k)` for the first key `k`
of the envelope that is not a metadata key.  The source calls
`next(...)` on the key generator with no default, so when every key is a
metadata key a `StopIteration` escapes. -/
def extract_data (data : PyDict) : Except PyErr JVal :=
  match data.find? (fun kv => decide (kv.1 ∉ metadata_keys)) with
  | some kv => .ok (dictGetD data kv.1 JVal.null)
  | none => .error .stopIteration

/-- `D42Client._check_err`: read `int(jres["code"])` and
`jres.get("msg", [])`; on a non-zero code raise
`ReturnCodeException(" ".join(map(str, ret_msg)))`, otherwise return the
message unchanged. -/
def check_err (jres : JVal) : Except PyErr JVal :=
  match jres with
  | .dict d =>
    match dictLookup d "code" with
    | none => .error .keyError
    | some cv =>
      match int_cast cv with
      | .error e => .error e
      | .ok ret_code =>
        let ret_msg := dictGetD d "msg" (JVal.list [])
        if ret_code ≠ 0 then
          match iterElems ret_msg with
          | .error e => .error e
          | .ok es =>
            .error (.returnCode (String.intercalate " " (es.map pyStr)))
        else .ok ret_msg
  | _ => .error .typeError

/-- Python's `s.startswith(pre)`: `pre`'s characters are an initial
segment of `s`'s characters. -/
def pyStartsWith (s pre : String) : Bool :=
  pre.toList.isPrefixOf s.toList

/-- A transport response as `D42Client._request` sees it: the HTTP
status code and the result of `res.json()` (`none` when the body is not
JSON-decodable, in which case `res.json()` raises `JSONDecodeError`). -/
structure HttpResp where
  status_code : Nat
  jsonResult : Option JVal

/-- The exception `D42Client._request` raises once `raise_for_status`
has raised an `HTTPError` (status 400–599): on a 500, the body is
decoded and a `msg` beginning with the license texts is turned into the
matching license exception; a decode failure is swallowed and the
original `HTTPError` re-raised; `.get` on a non-dict body and
`.startswith` on a non-string `msg` raise `AttributeError`. -/
def handle_http_error (r : HttpResp) : PyErr :=
  if r.status_code = 500 then
    match r.jsonResult with
    | none => .httpError r.status_code
    | some j =>
      match j with
      | .dict d =>
        match dictGetD d "msg" (JVal.str "") with
        | .str s =>
          if pyStartsWith s "License expired" then .licenseExpired s
          else if pyStartsWith s "License is not valid for" then
            .licenseInsufficient s
          else .httpError r.status_code
        | _ => .attributeError
      | _ => .attributeError
  else .httpError r.status_code

/-- `D42Client._request`, as a function of the transport's response:
`raise_for_status` raises `HTTPError` exactly for statuses 400–599
(classified by `handle_http_error`); otherwise the body is decoded and,
for POST/PUT, validated by `_check_err`. -/
def d42_request (r : HttpResp) (method : String) : Except PyErr JVal :=
  if 400 ≤ r.status_code ∧ r.status_code < 600 then
    .error (handle_http_error r)
  else
    match r.jsonResult with
    | none => .error .jsonDecode
    | some j =>
      if method = "POST" ∨ method = "PUT" then check_err j else .ok j

/-- The server behind `page_request`: maps the query-parameter dict the
engine sends to the (already status-checked and decoded) envelope that
`self._request` returns for it. -/
def Server := PyDict → JVal

/-- Suspension points of the `_paginated_request` generator.
`start` is the generator before its body has run (generators are lazy:
nothing executes until the first pull).  `afterFirst` is suspended at the
first `yield`, with `processed = len(resp_data)` still pending (it is
assigned only when the next pull resumes the body).  `inLoop` is
suspended at the in-loop `yield`, with `processed` already updated. -/
inductive GenState where
  | start (params : Option PyDict) (limit : Int) : GenState
  | afterFirst (params : PyDict) (limit : Int) (resp_data : JVal)
      (total_count : Int) : GenState
  | inLoop (params : PyDict) (limit : Int) (total_count : Int)
      (processed : Int) : GenState

/-- Outcome of resuming the generator once: either it yields a page and
suspends again, or the body returns (Python `StopIteration`), at which
point `finalParams` is the caller's params dict as the generator last
left it (the dict is mutated in place, so the caller sees this value). -/
inductive GenOut where
  | yielded (v : JVal) (st : GenState) : GenOut
  | stopped (finalParams : PyDict) : GenOut

/-- Lines 104–106 of `d42client.py`: default the params dict, then
overwrite its `limit` and `offset` entries. -/
def initParams (params : Option PyDict) (limit : Int) : PyDict :=
  dictSet (dictSet (params.getD []) "limit" (JVal.int limit)) "offset"
    (JVal.int 0)

/-- One round of the `while processed < total_count` loop (lines
124–135): if the guard fails the generator returns; otherwise it bumps
`params["offset"]` by `limit`, issues the next request, extracts and
measures the page, and yields it.  The returned list collects the
request(s) issued during this resumption. -/
def loopRound (server : Server) (params : PyDict) (limit total_count
    processed : Int) : Except PyErr (List PyDict × GenOut) :=
  if processed < total_count then
    match dictLookup params "offset" with
    | some (JVal.int o) =>
      let params' := dictSet params "offset" (JVal.int (o + limit))
      match server params' with
      | .dict d =>
        match extract_data d with
        | .error e => .error e
        | .ok resp_data =>
          match pyLen resp_data with
          | .error e => .error e
          | .ok n =>
            .ok ([params'],
              .yielded resp_data
                (.inLoop params' limit total_count (processed + n)))
      | _ => .error .attributeError
    | some _ => .error .typeError
    | none => .error .keyError
  else .ok ([], .stopped params)

/-- Resume `D42Client._paginated_request` once (one `next()` call on the
generator).  The first element of the result is the list of requests the
transport saw during this resumption — the pull-based shape of this
function is exactly the generator's laziness: a request can only be
issued while the caller is pulling. -/
def genNext (server : Server) : GenState → Except PyErr (List PyDict × GenOut)
  | .start params limit =>
    let p := initParams params limit
    match server p with
    | .dict d =>
      match extract_data d with
      | .error e => .error e
      | .ok resp_data =>
        if pyTruthy resp_data then
          match int_cast (dictGetD d "total_count" JVal.null) with
          | .error e => .error e
          | .ok total_count =>
            .ok ([p], .yielded resp_data (.afterFirst p limit resp_data
              total_count))
        else .ok ([p], .stopped p)
    | _ => .error .attributeError
  | .afterFirst params limit resp_data total_count =>
    match pyLen resp_data with
    | .error e => .error e
    | .ok n => loopRound server params limit total_count n
  | .inLoop params limit total_count processed =>
    loopRound server params limit total_count processed

/-- Drive the generator for at most `fuel` pulls, collecting every
request issued and every page yielded.  The third component is `some`
of the final params dict when the generator finished within `fuel`
pulls, and `none` when the fuel ran out with the generator still
suspended. -/
def runGen (server : Server) : Nat → GenState →
    Except PyErr (List PyDict × List JVal × Option PyDict)
  | 0, _ => .ok ([], [], none)
  | fuel + 1, st =>
    match genNext server st with
    | .error e => .error e
    | .ok (reqs, .stopped ps) => .ok (reqs, [], some ps)
    | .ok (reqs, .yielded v st') =>
      match runGen server fuel st' with
      | .error e => .error e
      | .ok (reqs', vs, fin) => .ok (reqs ++ reqs', v :: vs, fin)

/-- `D42Client._flattened_paginated_request`'s
`chain.from_iterable`: concatenate the yielded pages into one record
sequence (iterating a non-iterable page raises `TypeError`). -/
def flattenPages : List JVal → Except PyErr (List JVal)
  | [] => .ok []
  | p :: rest =>
    match iterElems p with
    | .error e => .error e
    | .ok es =>
      match flattenPages rest with
      | .error e => .error e
      | .ok r => .ok (es ++ r)

/-- A list envelope as the Device42 API returns it: the three metadata
keys and one payload key (here `"Devices"`). -/
def pageEnv (total off : Int) (recs : List JVal) : JVal :=
  JVal.dict [("limit", JVal.int 50), ("offset", JVal.int off),
    ("Devices", JVal.list recs), ("total_count", JVal.int total)]

/-- A well-behaved server for a 125-record listing at page size 50: it
answers offsets 0, 50 and 100 with pages `p1`, `p2`, `p3` and reports
`total_count = 125` in every envelope. -/
def threePage (p1 p2 p3 : List JVal) : Server := fun d =>
  match dictLookup d "offset" with
  | some (JVal.int o) =>
    if o = 0 then pageEnv 125 0 p1
    else if o = 50 then pageEnv 125 50 p2
    else if o = 100 then pageEnv 125 100 p3
    else JVal.null
  | _ => JVal.null

/-- An inconsistent server: the first page carries 2 records and claims
`total_count = 5`, but every later offset answers with an empty page
(still claiming `total_count = 5`), so `processed` never reaches
`total_count`. -/
def inconsistentServer : Server := fun d =>
  match dictLookup d "offset" with
  | some (JVal.int o) =>
    if o = 0 then pageEnv 5 0 [JVal.int 0, JVal.int 1]
    else pageEnv 5 o []
  | _ => JVal.null

/-- A server whose listing has no matching records at all: every page is
empty and `total_count = 0`. -/
def emptyServer : Server := fun _ => pageEnv 0 0 []

/-- The params dict as the engine leaves it after pointing the cursor at
offset `o`: the caller's dict with `limit` and `offset` overwritten. -/
def cursorAt (params : Option PyDict) (limit o : Int) : PyDict :=
  dictSet (initParams params limit) "offset" (JVal.int o)

/-- The concrete cursor dict of a run started with no caller params and
page size 50 (used with `inconsistentServer`). -/
def icur (o : Int) : PyDict :=
  [("limit", JVal.int 50), ("offset", JVal.int o)]

/-- `b - a` distinct sample records: the integers `a, a+1, …, b-1`. -/
def sampleRecords (a b : Nat) : List JVal :=
  (List.range (b - a)).map (fun i => JVal.int (a + i))

/-! ## Dictionary lemmas -/

theorem dictLookup_some_mem {d : PyDict} {k : String} {v : JVal}
    (h : dictLookup d k = some v) : (k, v) ∈ d := by
  induction d with
  | nil => simp [dictLookup] at h
  | cons kv rest ih =>
    obtain ⟨k', v'⟩ := kv
    by_cases hk : k' = k
    · subst hk
      simp [dictLookup] at h
      simp [h]
    · simp [dictLookup, hk] at h
      simp [ih h]

theorem dictLookup_dictSet_self (d : PyDict) (k : String) (v : JVal) :
    dictLookup (dictSet d k v) k = some v := by
  induction d with
  | nil => simp [dictSet, dictLookup]
  | cons kv rest ih =>
    obtain ⟨k', v'⟩ := kv
    by_cases hk : k' = k <;> simp [dictSet, dictLookup, hk, ih]

theorem dictLookup_dictSet_ne (d : PyDict) {k k' : String} (v : JVal)
    (h : k' ≠ k) : dictLookup (dictSet d k v) k' = dictLookup d k' := by
  have hne : k ≠ k' := fun hh => h hh.symm
  induction d with
  | nil => simp [dictSet, dictLookup, hne]
  | cons kv rest ih =>
    obtain ⟨k₀, v₀⟩ := kv
    by_cases hk : k₀ = k
    · subst hk
      simp [dictSet, dictLookup, hne]
    · simp [dictSet, dictLookup, hk, ih]

theorem dictSet_dictSet (d : PyDict) (k : String) (v w : JVal) :
    dictSet (dictSet d k v) k w = dictSet d k w := by
  induction d with
  | nil => simp [dictSet]
  | cons kv rest ih =>
    obtain ⟨k', v'⟩ := kv
    by_cases hk : k' = k <;> simp [dictSet, hk, ih]

theorem initParams_eq_cursorAt (params : Option PyDict) (limit : Int) :
    initParams params limit = cursorAt params limit 0 :=
  (dictSet_dictSet _ "offset" (JVal.int 0) (JVal.int 0)).symm

theorem cursorAt_step (params : Option PyDict) (limit o o' : Int) :
    dictSet (cursorAt params limit o) "offset" (JVal.int o') =
      cursorAt params limit o' :=
  dictSet_dictSet _ "offset" (JVal.int o) (JVal.int o')

theorem cursorAt_offset (params : Option PyDict) (limit o : Int) :
    dictLookup (cursorAt params limit o) "offset" = some (JVal.int o) :=
  dictLookup_dictSet_self _ "offset" (JVal.int o)

theorem cursorAt_limit (params : Option PyDict) (limit o : Int) :
    dictLookup (cursorAt params limit o) "limit" = some (JVal.int limit) := by
  unfold cursorAt initParams
  rw [dictLookup_dictSet_ne _ _ (by decide),
    dictLookup_dictSet_ne _ _ (by decide),
    dictLookup_dictSet_self]

theorem cursorAt_other (params : Option PyDict) (limit o : Int) (k : String)
    (h1 : k ≠ "limit") (h2 : k ≠ "offset") :
    dictLookup (cursorAt params limit o) k =
      dictLookup (params.getD []) k := by
  unfold cursorAt initParams
  rw [dictLookup_dictSet_ne _ _ h2, dictLookup_dictSet_ne _ _ h2,
    dictLookup_dictSet_ne _ _ h1]

/-! ## Payload extraction (`extract_data`) -/

/-- C2.  For every list envelope whose keys are exactly
`{offset, limit, total_count, X}` — more generally, whenever every key
is either `X` or a metadata key, and `X` (not itself a metadata key) is
present with value `v` — `extract_data` returns `v`. -/
theorem extract_data_returns_unique_payload_key (d : PyDict) (X : String)
    (v : JVal) (hX : X ∉ metadata_keys)
    (hkeys : ∀ kv ∈ d, kv.1 = X ∨ kv.1 ∈ metadata_keys)
    (hv : dictLookup d X = some v) :
    extract_data d = .ok v := by
  have hmem : (X, v) ∈ d := dictLookup_some_mem hv
  have hsome : (d.find? (fun kv => decide (kv.1 ∉ metadata_keys))).isSome := by
    rw [List.find?_isSome]
    exact ⟨(X, v), hmem, by simpa using hX⟩
  obtain ⟨e, he⟩ := Option.isSome_iff_exists.mp hsome
  have hpred : e.1 ∉ metadata_keys := by
    have := List.find?_some he
    simpa using this
  have heX : e.1 = X := by
    rcases hkeys e (List.mem_of_find?_eq_some he) with h | h
    · exact h
    · exact absurd h hpred
  unfold extract_data
  rw [he]
  simp [heX, dictGetD, hv]

/-- Witness for C2: a four-key envelope with payload key `"things"`. -/
theorem extract_data_returns_unique_payload_key_witness :
    extract_data [("offset", JVal.int 0), ("limit", JVal.int 50),
      ("total_count", JVal.int 1), ("things", JVal.list [JVal.int 7])] =
      .ok (JVal.list [JVal.int 7]) :=
  extract_data_returns_unique_payload_key _ "things" _ (by decide)
    (by decide) rfl

/-- C5, counterexample to the claim as stated: on an envelope with only
metadata keys, `extract_data` does not return an absent value — the
`next(...)` call (which has no default) raises `StopIteration`. -/
theorem extract_data_metadata_only_counterexample :
    extract_data [("offset", JVal.int 0), ("total_count", JVal.int 0),
      ("limit", JVal.int 50)] = .error .stopIteration := rfl

/-- C5, amended.  When a list envelope contains no key outside the
metadata set, `extract_data` signals an error: `next` on the exhausted
key generator raises `StopIteration` (which PEP 479 turns into a
`RuntimeError` when it escapes into the `_paginated_request`
generator); it does not return `None`. -/
theorem extract_data_no_payload_key_raises (d : PyDict)
    (h : ∀ kv ∈ d, kv.1 ∈ metadata_keys) :
    extract_data d = .error .stopIteration := by
  have hnone : d.find? (fun kv => decide (kv.1 ∉ metadata_keys)) = none := by
    rw [List.find?_eq_none]
    intro kv hkv
    simpa using h kv hkv
  unfold extract_data
  rw [hnone]

/-- Witness for the amended C5. -/
theorem extract_data_no_payload_key_raises_witness :
    extract_data [("total_count", JVal.int 9), ("offset", JVal.int 3)] =
      .error .stopIteration :=
  extract_data_no_payload_key_raises _ (by decide)

/-! ## Mutation envelopes (`_check_err`) -/

/-- C3.  For a POST/PUT envelope (a dict with an integer-castable
`code`): with `code == 0` the operation returns `jres.get("msg", [])`
unchanged (the `msg` field itself when present); with `code != 0` it
raises a `ReturnCodeException` whose message is the elements of `msg`
stringified and joined by single spaces; when `msg` is absent the
default is the empty list, hence the empty message. -/
theorem check_err_code_branches (d : PyDict) (cv : JVal) (c : Int)
    (msgE : List JVal) (hcode : dictLookup d "code" = some cv)
    (hc : int_cast cv = .ok c)
    (hiter : iterElems (dictGetD d "msg" (JVal.list [])) = .ok msgE) :
    (c = 0 → check_err (JVal.dict d) = .ok (dictGetD d "msg" (JVal.list [])))
    ∧ (c ≠ 0 → check_err (JVal.dict d) =
        .error (.returnCode (String.intercalate " " (msgE.map pyStr))))
    ∧ (dictLookup d "msg" = none →
        dictGetD d "msg" (JVal.list []) = JVal.list []) := by
  refine ⟨?_, ?_, ?_⟩
  · intro h0
    simp [check_err, hcode, hc, h0]
  · intro hne
    simp [check_err, hcode, hc, hne, hiter]
  · intro habs
    simp [dictGetD, habs]

/-- Witness for C3: `code = 5`, `msg = ["bad", "thing"]` raises
`ReturnCodeException("bad thing")`. -/
theorem check_err_code_branches_witness :
    check_err (JVal.dict [("code", JVal.int 5),
      ("msg", JVal.list [JVal.str "bad", JVal.str "thing"])]) =
      .error (.returnCode "bad thing") :=
  (check_err_code_branches
    [("code", JVal.int 5),
      ("msg", JVal.list [JVal.str "bad", JVal.str "thing"])]
    (JVal.int 5) 5 [JVal.str "bad", JVal.str "thing"]
    rfl rfl rfl).2.1 (by decide)

/-! ## Transport error classification (`_request`) -/

/-- C4, counterexample to the claim as stated: a 304 response is
non-2xx, yet `raise_for_status` (which raises only for 4xx/5xx) does
not raise, so `_request` does not fail with the generic HTTP error — it
proceeds to decode and return the body. -/
theorem non2xx_not_always_http_error_counterexample :
    d42_request ⟨304, some (JVal.dict [])⟩ "GET" = .ok (JVal.dict [])
    ∧ d42_request ⟨304, some (JVal.dict [])⟩ "GET" ≠
        .error (.httpError 304) := by
  constructor
  · rfl
  · intro h
    simp [d42_request] at h

/-- C4, amended.  For 4xx/5xx responses (the statuses for which
`raise_for_status` raises): an HTTP 500 whose JSON-object body's `msg`
string starts with "License expired" fails with
`LicenseExpiredException` carrying that message; a 500 whose `msg`
string starts with "License is not valid for" (and not with "License
expired") fails with `LicenseInsufficientException`; a 500 whose `msg`
string matches neither, and any other 4xx/5xx status, fail with the
generic HTTP transport error.  Statuses outside 400–599 are not raised
by `raise_for_status` at all. -/
theorem request_error_classification (r : HttpResp) (m : String)
    (d : PyDict) (s : String) :
    (r.status_code = 500 → r.jsonResult = some (JVal.dict d) →
      dictGetD d "msg" (JVal.str "") = JVal.str s →
      ((pyStartsWith s "License expired" = true →
          d42_request r m = .error (.licenseExpired s))
       ∧ (pyStartsWith s "License expired" = false →
          pyStartsWith s "License is not valid for" = true →
          d42_request r m = .error (.licenseInsufficient s))
       ∧ (pyStartsWith s "License expired" = false →
          pyStartsWith s "License is not valid for" = false →
          d42_request r m = .error (.httpError 500))))
    ∧ (400 ≤ r.status_code → r.status_code < 600 → r.status_code ≠ 500 →
        d42_request r m = .error (.httpError r.status_code)) := by
  constructor
  · intro h500 hbody hmsg
    refine ⟨?_, ?_, ?_⟩
    · intro hexp
      simp [d42_request, handle_http_error, h500, hbody, hmsg, hexp]
    · intro hexp hval
      simp [d42_request, handle_http_error, h500, hbody, hmsg, hexp, hval]
    · intro hexp hval
      simp [d42_request, handle_http_error, h500, hbody, hmsg, hexp, hval]
  · intro hlo hhi hne
    simp [d42_request, handle_http_error, hlo, hhi, hne]

/-- Witness for the amended C4: the license-expired branch at a
concrete 500 response. -/
theorem request_error_classification_witness :
    d42_request ⟨500, some (JVal.dict
      [("msg", JVal.str "License expired for feature X")])⟩ "GET" =
      .error (.licenseExpired "License expired for feature X") :=
  ((request_error_classification
      ⟨500, some (JVal.dict
        [("msg", JVal.str "License expired for feature X")])⟩ "GET"
      [("msg", JVal.str "License expired for feature X")]
      "License expired for feature X").1 rfl rfl rfl).1 (by decide)

/-- C9.  When a 500 body is not JSON-decodable, the `JSONDecodeError`
is swallowed (only license detection is skipped) and the original
`HTTPError` for the 500 is still raised to the caller. -/
theorem json_decode_failure_still_http_error (r : HttpResp) (m : String)
    (h500 : r.status_code = 500) (hbody : r.jsonResult = none) :
    d42_request r m = .error (.httpError 500) := by
  simp [d42_request, handle_http_error, h500, hbody]

/-- Witness for C9. -/
theorem json_decode_failure_still_http_error_witness :
    d42_request ⟨500, none⟩ "GET" = .error (.httpError 500) :=
  json_decode_failure_still_http_error ⟨500, none⟩ "GET" rfl rfl

/-! ## Pagination engine: the well-behaved 125-record listing -/

theorem extract_pageEnv (total off : Int) (recs : List JVal) :
    extract_data [("limit", JVal.int 50), ("offset", JVal.int off),
      ("Devices", JVal.list recs), ("total_count", JVal.int total)] =
      .ok (JVal.list recs) := rfl

theorem pyTruthy_of_length {xs : List JVal} {n : Nat} (h : xs.length = n)
    (hn : n ≠ 0) : pyTruthy (JVal.list xs) = true := by
  cases xs with
  | nil => simp at h; exact absurd h.symm hn
  | cons a l => rfl

theorem threePage_apply (p1 p2 p3 : List JVal) (q : PyDict) (o : Int)
    (h : dictLookup q "offset" = some (JVal.int o)) :
    threePage p1 p2 p3 q =
      (if o = 0 then pageEnv 125 0 p1
       else if o = 50 then pageEnv 125 50 p2
       else if o = 100 then pageEnv 125 100 p3
       else JVal.null) := by
  simp [threePage, h]

theorem threePage_pull1 (p1 p2 p3 : List JVal) (params : Option PyDict)
    (h1 : p1.length = 50) :
    genNext (threePage p1 p2 p3) (.start params 50) =
      .ok ([cursorAt params 50 0],
        .yielded (JVal.list p1)
          (.afterFirst (cursorAt params 50 0) 50 (JVal.list p1) 125)) := by
  have hi : initParams params 50 = cursorAt params 50 0 :=
    initParams_eq_cursorAt params 50
  have hs : threePage p1 p2 p3 (cursorAt params 50 0) = pageEnv 125 0 p1 := by
    rw [threePage_apply p1 p2 p3 _ 0 (cursorAt_offset params 50 0)]
    simp
  have ht : pyTruthy (JVal.list p1) = true := pyTruthy_of_length h1 (by decide)
  simp [genNext, hi, hs, pageEnv, extract_pageEnv, ht, dictGetD, dictLookup,
    int_cast]

theorem threePage_pull2 (p1 p2 p3 : List JVal) (params : Option PyDict)
    (h1 : p1.length = 50) (h2 : p2.length = 50) :
    genNext (threePage p1 p2 p3)
        (.afterFirst (cursorAt params 50 0) 50 (JVal.list p1) 125) =
      .ok ([cursorAt params 50 50],
        .yielded (JVal.list p2) (.inLoop (cursorAt params 50 50) 50 125 100)) := by
  have hs : threePage p1 p2 p3 (cursorAt params 50 50) = pageEnv 125 50 p2 := by
    rw [threePage_apply p1 p2 p3 _ 50 (cursorAt_offset params 50 50)]
    simp
  simp [genNext, pyLen, h1, loopRound, cursorAt_offset, cursorAt_step, hs,
    pageEnv, extract_pageEnv, h2]

theorem threePage_pull3 (p1 p2 p3 : List JVal) (params : Option PyDict)
    (h3 : p3.length = 25) :
    genNext (threePage p1 p2 p3)
        (.inLoop (cursorAt params 50 50) 50 125 100) =
      .ok ([cursorAt params 50 100],
        .yielded (JVal.list p3) (.inLoop (cursorAt params 50 100) 50 125 125)) := by
  have hs : threePage p1 p2 p3 (cursorAt params 50 100) = pageEnv 125 100 p3 := by
    rw [threePage_apply p1 p2 p3 _ 100 (cursorAt_offset params 50 100)]
    simp
  simp [genNext, loopRound, cursorAt_offset, cursorAt_step, hs, pageEnv,
    extract_pageEnv, pyLen, h3]

theorem threePage_pull4 (p1 p2 p3 : List JVal) (params : Option PyDict) :
    genNext (threePage p1 p2 p3)
        (.inLoop (cursorAt params 50 100) 50 125 125) =
      .ok ([], .stopped (cursorAt params 50 100)) := by
  simp [genNext, loopRound]

theorem runGen_stop {server : Server} {st : GenState} {reqs : List PyDict}
    {ps : PyDict} (fuel : Nat)
    (h : genNext server st = .ok (reqs, .stopped ps)) :
    runGen server (fuel + 1) st = .ok (reqs, [], some ps) := by
  rw [runGen, h]

theorem runGen_yield_ok {server : Server} {st st' : GenState}
    {reqs reqs' : List PyDict} {v : JVal} {vs : List JVal}
    {fin : Option PyDict} (fuel : Nat)
    (h : genNext server st = .ok (reqs, .yielded v st'))
    (hrest : runGen server fuel st' = .ok (reqs', vs, fin)) :
    runGen server (fuel + 1) st = .ok (reqs ++ reqs', v :: vs, fin) := by
  rw [runGen, h]
  simp [hrest]

theorem threePage_run (p1 p2 p3 : List JVal) (params : Option PyDict)
    (h1 : p1.length = 50) (h2 : p2.length = 50) (h3 : p3.length = 25)
    (fuel : Nat) :
    runGen (threePage p1 p2 p3) (fuel + 4) (.start params 50) =
      .ok ([cursorAt params 50 0, cursorAt params 50 50, cursorAt params 50 100],
        [JVal.list p1, JVal.list p2, JVal.list p3],
        some (cursorAt params 50 100)) := by
  have s4 : runGen (threePage p1 p2 p3) (fuel + 1)
      (.inLoop (cursorAt params 50 100) 50 125 125) =
      .ok ([], [], some (cursorAt params 50 100)) :=
    runGen_stop fuel (threePage_pull4 p1 p2 p3 params)
  have s3 : runGen (threePage p1 p2 p3) (fuel + 2)
      (.inLoop (cursorAt params 50 50) 50 125 100) =
      .ok ([cursorAt params 50 100], [JVal.list p3],
        some (cursorAt params 50 100)) :=
    runGen_yield_ok (fuel + 1) (threePage_pull3 p1 p2 p3 params h3) s4
  have s2 : runGen (threePage p1 p2 p3) (fuel + 3)
      (.afterFirst (cursorAt params 50 0) 50 (JVal.list p1) 125) =
      .ok ([cursorAt params 50 50, cursorAt params 50 100],
        [JVal.list p2, JVal.list p3], some (cursorAt params 50 100)) :=
    runGen_yield_ok (fuel + 2) (threePage_pull2 p1 p2 p3 params h1 h2) s3
  exact runGen_yield_ok (fuel + 3) (threePage_pull1 p1 p2 p3 params h1) s2

/-- C1.  Over an endpoint whose envelopes report `total_count = 125` at
page size `limit = 50` and whose pages hold 50, 50 and 25 records, the
engine issues exactly 3 requests — at offsets 0, 50 and 100, in that
order — then stops (no further request however long the caller keeps
pulling), and the flattened output is the 125 records `p1 ++ p2 ++ p3`,
preserving page order and in-page order. -/
theorem paginated_request_125_three_pages (p1 p2 p3 : List JVal)
    (params : Option PyDict) (h1 : p1.length = 50) (h2 : p2.length = 50)
    (h3 : p3.length = 25) (fuel : Nat) :
    runGen (threePage p1 p2 p3) (fuel + 4) (.start params 50) =
      .ok ([cursorAt params 50 0, cursorAt params 50 50, cursorAt params 50 100],
        [JVal.list p1, JVal.list p2, JVal.list p3],
        some (cursorAt params 50 100))
    ∧ [cursorAt params 50 0, cursorAt params 50 50,
        cursorAt params 50 100].map (fun q => dictLookup q "offset") =
        [some (JVal.int 0), some (JVal.int 50), some (JVal.int 100)]
    ∧ flattenPages [JVal.list p1, JVal.list p2, JVal.list p3] =
        .ok (p1 ++ p2 ++ p3)
    ∧ (p1 ++ p2 ++ p3).length = 125 := by
  refine ⟨threePage_run p1 p2 p3 params h1 h2 h3 fuel, ?_, ?_, ?_⟩
  · simp [cursorAt_offset]
  · simp [flattenPages, iterElems]
  · simp [h1, h2, h3]

/-- Witness for C1 at concrete pages of 50, 50 and 25 integer records. -/
theorem paginated_request_125_three_pages_witness :
    runGen (threePage (sampleRecords 0 50) (sampleRecords 50 100)
        (sampleRecords 100 125)) 4 (.start none 50) =
      .ok ([cursorAt none 50 0, cursorAt none 50 50, cursorAt none 50 100],
        [JVal.list (sampleRecords 0 50), JVal.list (sampleRecords 50 100),
          JVal.list (sampleRecords 100 125)],
        some (cursorAt none 50 100))
    ∧ (sampleRecords 0 50 ++ sampleRecords 50 100 ++
        sampleRecords 100 125).length = 125 := by
  have h := paginated_request_125_three_pages (sampleRecords 0 50)
    (sampleRecords 50 100) (sampleRecords 100 125) none
    rfl rfl rfl 0
  exact ⟨h.1, h.2.2.2⟩

/-- C7.  The paginated sequence is pull-based: over the 3-page listing,
a caller that pulls only the first page causes exactly 1 request (the
run below performs one pull: one request dict went out, one page came
back, and the generator is still suspended — `none` — so no further
request has been issued), whereas draining the whole sequence issues 3. -/
theorem lazy_first_page_single_request (p1 p2 p3 : List JVal)
    (params : Option PyDict) (h1 : p1.length = 50) (h2 : p2.length = 50)
    (h3 : p3.length = 25) :
    runGen (threePage p1 p2 p3) 1 (.start params 50) =
      .ok ([cursorAt params 50 0], [JVal.list p1], none)
    ∧ (runGen (threePage p1 p2 p3) 4 (.start params 50)).map
        (fun r => r.1.length) = .ok 3 := by
  constructor
  · have hstep := threePage_pull1 p1 p2 p3 params h1
    rw [show (1 : Nat) = 0 + 1 from rfl, runGen, hstep]
    rfl
  · rw [show (4 : Nat) = 0 + 4 from rfl,
      threePage_run p1 p2 p3 params h1 h2 h3 0]
    rfl

/-- Witness for C7. -/
theorem lazy_first_page_single_request_witness :
    runGen (threePage (sampleRecords 0 50) (sampleRecords 50 100)
        (sampleRecords 100 125)) 1 (.start none 50) =
      .ok ([cursorAt none 50 0], [JVal.list (sampleRecords 0 50)], none) :=
  (lazy_first_page_single_request (sampleRecords 0 50) (sampleRecords 50 100)
    (sampleRecords 100 125) none rfl rfl rfl).1

/-- C10.  The caller-supplied params dict is mutated in place: its
`limit` and `offset` entries are overwritten before the first request
(first conjunct after the run: the first request dict is exactly the
caller's dict with `limit`/`offset` overwritten), `offset` is bumped by
`limit` before each later page (the `dictSet` step equation), and when
the listing ends the engine's dict — which, by Python aliasing, IS the
caller's dict — holds the final cursor `offset = 100`, `limit = 50`,
with every unrelated entry of the caller's dict still present. -/
theorem params_dict_mutated_in_place (p1 p2 p3 : List JVal) (d : PyDict)
    (h1 : p1.length = 50) (h2 : p2.length = 50) (h3 : p3.length = 25) :
    runGen (threePage p1 p2 p3) 4 (.start (some d) 50) =
      .ok ([cursorAt (some d) 50 0, cursorAt (some d) 50 50,
          cursorAt (some d) 50 100],
        [JVal.list p1, JVal.list p2, JVal.list p3],
        some (cursorAt (some d) 50 100))
    ∧ cursorAt (some d) 50 0 =
        dictSet (dictSet d "limit" (JVal.int 50)) "offset" (JVal.int 0)
    ∧ (∀ o : Int, dictSet (cursorAt (some d) 50 o) "offset"
        (JVal.int (o + 50)) = cursorAt (some d) 50 (o + 50))
    ∧ dictLookup (cursorAt (some d) 50 100) "offset" = some (JVal.int 100)
    ∧ dictLookup (cursorAt (some d) 50 100) "limit" = some (JVal.int 50)
    ∧ (∀ k, k ≠ "limit" → k ≠ "offset" →
        dictLookup (cursorAt (some d) 50 100) k = dictLookup d k) := by
  refine ⟨?_, ?_, ?_, cursorAt_offset _ _ _, cursorAt_limit _ _ _, ?_⟩
  · exact threePage_run p1 p2 p3 (some d) h1 h2 h3 0
  · rw [← initParams_eq_cursorAt]
    rfl
  · intro o
    exact cursorAt_step (some d) 50 o (o + 50)
  · intro k hk1 hk2
    exact cursorAt_other (some d) 50 100 k hk1 hk2

/-- Witness for C10: a caller dict with a filter entry `name`; after the
listing it holds the final cursor and the filter entry survives. -/
theorem params_dict_mutated_in_place_witness :
    dictLookup (cursorAt (some [("name", JVal.str "x")]) 50 100) "offset" =
      some (JVal.int 100)
    ∧ dictLookup (cursorAt (some [("name", JVal.str "x")]) 50 100) "name" =
      some (JVal.str "x") := by
  have h := params_dict_mutated_in_place (sampleRecords 0 50)
    (sampleRecords 50 100) (sampleRecords 100 125) [("name", JVal.str "x")]
    rfl rfl rfl
  exact ⟨h.2.2.2.1, by rw [h.2.2.2.2.2 "name" (by decide) (by decide)]; rfl⟩

/-! ## Pagination engine: empty first page, and inconsistent counts -/

/-- C6.  Whenever the first page's extracted payload is falsy (empty
list, or any other falsy value), the generator returns before reading
`total_count`: exactly 1 request is ever issued — however long the
caller keeps pulling — no page is produced, and the flattened sequence
is empty. -/
theorem empty_first_page_single_request (server : Server)
    (params : Option PyDict) (limit : Int) (d0 : PyDict) (rd : JVal)
    (hresp : server (initParams params limit) = JVal.dict d0)
    (hex : extract_data d0 = .ok rd) (hfalsy : pyTruthy rd = false) :
    ∀ fuel : Nat,
      runGen server (fuel + 1) (.start params limit) =
        .ok ([initParams params limit], [], some (initParams params limit))
      ∧ flattenPages [] = .ok ([] : List JVal) := by
  intro fuel
  have hstep : genNext server (.start params limit) =
      .ok ([initParams params limit], .stopped (initParams params limit)) := by
    simp [genNext, hresp, hex, hfalsy]
  exact ⟨runGen_stop fuel hstep, rfl⟩

/-- Witness for C6: a server with no matching records at all. -/
theorem empty_first_page_single_request_witness :
    runGen emptyServer 1 (.start none 50) =
      .ok ([initParams none 50], [], some (initParams none 50)) :=
  (empty_first_page_single_request emptyServer none 50
    [("limit", JVal.int 50), ("offset", JVal.int 0),
      ("Devices", JVal.list []), ("total_count", JVal.int 0)]
    (JVal.list []) rfl rfl rfl 0).1

theorem inconsistent_pull1 :
    genNext inconsistentServer (.start none 50) =
      .ok ([icur 0], .yielded (JVal.list [JVal.int 0, JVal.int 1])
        (.afterFirst (icur 0) 50 (JVal.list [JVal.int 0, JVal.int 1]) 5)) :=
  rfl

theorem inconsistent_pull2 :
    genNext inconsistentServer
        (.afterFirst (icur 0) 50 (JVal.list [JVal.int 0, JVal.int 1]) 5) =
      .ok ([icur 50], .yielded (JVal.list [])
        (.inLoop (icur 50) 50 5 2)) :=
  rfl

theorem inconsistent_step (o : Int) (h : o + 50 ≠ 0) :
    genNext inconsistentServer (.inLoop (icur o) 50 5 2) =
      .ok ([icur (o + 50)], .yielded (JVal.list [])
        (.inLoop (icur (o + 50)) 50 5 2)) := by
  simp [genNext, loopRound, icur, dictLookup, dictSet, inconsistentServer,
    h, pageEnv, extract_data, metadata_keys, dictGetD, pyLen]

theorem inconsistent_never_stops (n : Nat) : ∀ o : Int, 0 < o →
    ∃ reqs ys, runGen inconsistentServer n (.inLoop (icur o) 50 5 2) =
      .ok (reqs, ys, none) ∧ reqs.length = n := by
  induction n with
  | zero => exact fun o _ => ⟨[], [], rfl, rfl⟩
  | succ n ih =>
    intro o ho
    obtain ⟨reqs, ys, hrun, hlen⟩ := ih (o + 50) (by omega)
    refine ⟨icur (o + 50) :: reqs, JVal.list [] :: ys, ?_, by simp [hlen]⟩
    have := runGen_yield_ok n (inconsistent_step o (by omega)) hrun
    simpa using this

/-- C8.  The loop is guarded only by `processed < total_count`: against
a server whose later pages are empty while `total_count` stays ahead of
`processed`, the engine never terminates — after any number of pulls the
generator is still suspended (`none`), having issued one request per
pull, forever. -/
theorem pagination_nonterminating_server : ∀ fuel : Nat, ∃ reqs ys,
    runGen inconsistentServer fuel (.start none 50) = .ok (reqs, ys, none)
    ∧ reqs.length = fuel := by
  intro fuel
  match fuel with
  | 0 => exact ⟨[], [], rfl, rfl⟩
  | 1 =>
    refine ⟨[icur 0], [JVal.list [JVal.int 0, JVal.int 1]], ?_, rfl⟩
    have h0 : runGen inconsistentServer 0
        (.afterFirst (icur 0) 50 (JVal.list [JVal.int 0, JVal.int 1]) 5) =
        .ok ([], [], none) := rfl
    simpa using runGen_yield_ok 0 inconsistent_pull1 h0
  | (n + 2) =>
    obtain ⟨reqs, ys, hrun, hlen⟩ := inconsistent_never_stops n 50 (by omega)
    refine ⟨icur 0 :: icur 50 :: reqs,
      JVal.list [JVal.int 0, JVal.int 1] :: JVal.list [] :: ys, ?_,
      by simp [hlen]⟩
    have h2 := runGen_yield_ok n inconsistent_pull2 hrun
    have h1 := runGen_yield_ok (n + 1) inconsistent_pull1 h2
    simpa using h1
